import Mathlib

/-!
Verification of the settings / request-building / response-materialization
core of the StabDiffAuto1111 GIMP plug-in (files `gimp_sd_a1111.py` and
`sd_gui_utils.py`), via a shallow embedding of the relevant functions.
-/

/-! ## Rounding (sd_gui_utils.round_to_multiple)

Python `round` rounds halves to the nearest even integer (round-half-to-even).
`round_to_multiple(value, multiple)` is `multiple * round(float(value) / multiple)`.
For the multiples used here (8 and 64, powers of two) float division of image
dimensions is exact, so the rational model is faithful.
-/

/-- Model of the Python built-in `round` on an exact rational: nearest integer,
ties to even. -/
def pythonRound (q : ℚ) : ℤ :=
  if q - ⌊q⌋ < 1 / 2 then ⌊q⌋
  else if 1 / 2 < q - ⌊q⌋ then ⌊q⌋ + 1
  else if ⌊q⌋ % 2 = 0 then ⌊q⌋ else ⌊q⌋ + 1

/-- `sd_gui_utils.round_to_multiple`: `multiple * round(float(value) / multiple)`. -/
def round_to_multiple (value : ℚ) (multiple : ℤ) : ℤ :=
  multiple * pythonRound (value / multiple)

/-! ## Fixed tables (gimp_sd_a1111.StabDiffAuto1111 class constants) -/

/-- `StabDiffAuto1111.MAX_BATCH_SIZE`. -/
def MAX_BATCH_SIZE : ℤ := 20

/-- `StabDiffAuto1111.SAMPLERS`: the fixed, ordered sampler name list. -/
def SAMPLERS : List String :=
  ["Euler a",
   "Euler",
   "LMS",
   "Heun",
   "DPM2",
   "DPM2 a",
   "DPM++ 2S a",
   "DPM++ 2M",
   "DPM++ SDE",
   "DPM fast",
   "DPM adaptive",
   "LMS Karras",
   "DPM2 Karras",
   "DPM2 a Karras",
   "DPM++ 2S a Karras",
   "DPM++ 2M Karras",
   "DPM++ SDE Karras",
   "DDIM"]

/-! ## Python scalar values and truthiness (for the `seed or -1` idiom) -/

/-- The Python scalar values a seed field can hold at the call sites:
an integer, a string, or `None`. -/
inductive PyVal where
  | int (n : ℤ)
  | str (s : String)
  | none
deriving DecidableEq, Repr

/-- Python truthiness on `PyVal`: `0`, `""` and `None` are falsy. -/
def pyTruthy : PyVal → Bool
  | .int n => n != 0
  | .str s => s != ""
  | .none => false

/-- The Python expression `a or b`: `a` when truthy, else `b`. -/
def pyOr (a b : PyVal) : PyVal :=
  if pyTruthy a then a else b

/-! ## Request translator (gimp_sd_a1111.image_to_image, lines 1681-1694)

The `data` dictionary built by `image_to_image` before transmission.
Fields whose construction the claims are about are carried exactly;
base64 images are opaque strings.
-/

structure Img2ImgData where
  resize_mode : ℤ
  init_images : List String
  prompt : String
  negative_prompt : String
  denoising_strength : ℚ
  steps : ℤ
  cfg_scale : ℚ
  width : ℤ
  height : ℤ
  sampler_index : String
  batch_size : ℤ
  seed : PyVal
deriving DecidableEq, Repr

/-- The `data` dict assembled by `StabDiffAuto1111.image_to_image` (the
`text_to_image` and `inpainting` builders share the same constructions of
`width`, `height`, `sampler_index`, `batch_size` and `seed`). -/
def image_to_image_data
    (resizeMode : ℤ) (activeLayerB64 : String)
    (pPromptPre nPromptPre storedPrompt storedNegativePrompt : String)
    (denoisingStrength : ℚ) (steps : ℤ) (cfgScale : ℚ)
    (width height : ℚ) (samplerIdx : Fin SAMPLERS.length)
    (batchSize : ℤ) (seed : PyVal) : Img2ImgData :=
  { resize_mode := resizeMode
    init_images := [activeLayerB64]
    prompt := (pPromptPre ++ " " ++ storedPrompt).trim
    negative_prompt := (nPromptPre ++ " " ++ storedNegativePrompt).trim
    denoising_strength := denoisingStrength
    steps := steps
    cfg_scale := cfgScale
    width := round_to_multiple width 8
    height := round_to_multiple height 8
    sampler_index := SAMPLERS.get samplerIdx
    batch_size := min MAX_BATCH_SIZE (max 1 batchSize)
    seed := pyOr seed (.int (-1)) }

/-! ## Settings store (gimp_sd_a1111.StabDiffAuto1111.MyShelf, lines 415-468)

Settings mappings are modeled as partial maps `String → Option α`; Python
`dict.update` is `dictUpdate`.  The persisted JSON file is part of the shelf
state: it can be missing, unreadable/corrupt, or hold a saved mapping.
`load` and `save` swallow every exception (both bodies are wrapped in
`try`/`except` that only logs), so they are modeled as total functions.
-/

/-- Python `base.update(x)`: keys of `x` override keys of `base`. -/
def dictUpdate {α : Type} (base x : String → Option α) : String → Option α :=
  fun k => match x k with
    | some v => some v
    | Option.none => base k

/-- The state of the persisted settings file
`stable_diffusion_auto1111.json`. -/
inductive ShelfFile (α : Type) where
  | missing
  | corrupt
  | saved (m : String → Option α)

/-- A `MyShelf` instance together with its persisted file. -/
structure MyShelf (α : Type) where
  data : String → Option α
  file : ShelfFile α

/-- `MyShelf.load(default_shelf)`: set `data` to the defaults, then replace it
with the parsed file content when the file exists and parses; a missing or
corrupt file leaves the defaults in place (the exception is logged, not
raised). -/
def shelfLoad {α : Type} (s : MyShelf α) (default_shelf : String → Option α) :
    MyShelf α :=
  match s.file with
  | .saved m => { s with data := m }
  | _ => { s with data := default_shelf }

/-- `MyShelf.save(data)`: `self.data.update(data)` then rewrite the whole file
with the merged mapping. -/
def shelfSave {α : Type} (s : MyShelf α) (x : String → Option α) : MyShelf α :=
  let merged := dictUpdate s.data x
  { data := merged, file := .saved merged }

/-- `MyShelf.__init__(default_shelf)` on a fresh installation (no settings file
on disk yet): `load(default_shelf)` finds no file and keeps the defaults. -/
def shelfInit {α : Type} (default_shelf : String → Option α) : MyShelf α :=
  shelfLoad { data := fun _ => Option.none, file := .missing } default_shelf

/-! ## API client (gimp_sd_a1111.StabDiffAuto1111.ApiClient.post, lines 523-551)

`urlopen` raises `urllib.error.HTTPError` exactly when the server answers with
a non-2xx status; `post` catches it, logs the status code, reason and headers,
and falls off the end of the function (returning `None`).  The model takes the
outcome of the single `urlopen` call as input and returns the value produced
(`Option String`, `none` standing for Python `None`), wrapped in `Except` so
that a propagated exception would be visible, together with the log lines and
the number of network calls made.
-/

structure HttpErrorInfo where
  url : String
  code : ℤ
  reason : String
  headers : String
deriving DecidableEq, Repr

/-- Outcome of the one `urlopen` call inside `ApiClient.post`. -/
inductive HttpOutcome where
  | success (responseBody : String)
  | httpError (e : HttpErrorInfo)
deriving DecidableEq, Repr

/-- Result of `ApiClient.post`: the value handed back to the caller (inside
`Except`, `.error` would mean an exception escaped), the logged lines, and how
many network calls were made. -/
structure PostResult where
  returned : Except String (Option String)
  logged : List String
  networkCalls : ℕ
deriving Repr

/-- `ApiClient.post(endpoint, dict_in)`: one `urlopen`; on success the parsed
response body is returned; on `HTTPError` the code, reason and headers are
logged and control falls off the end of the method (Python returns `None`). -/
def apiClientPost (url : String) (outcome : HttpOutcome) : PostResult :=
  match outcome with
  | .success body =>
      { returned := .ok (some body)
        logged := ["POST " ++ url]
        networkCalls := 1 }
  | .httpError e =>
      { returned := .ok Option.none
        logged := ["POST " ++ url,
                   "ERROR: ApiClient.post()",
                   "url=" ++ e.url ++ ", code=" ++ toString e.code ++
                     ", reason=" ++ e.reason,
                   e.headers]
        networkCalls := 1 }

/-! ## Server polling (gimp_sd_a1111.poll_server, lines 993-1002, and
sd_gui_utils.server_online, lines 295-301)

`poll_server` validates the stored `api_base` URL and raises `ValueError`
before touching the network when it is missing, blank, or does not start with
`http://` (case-insensitively); only a URL passing every check is probed via
`server_online`.  The reachability oracle is a parameter; the model returns
the raised-or-returned outcome and the list of URLs actually probed.
-/

/-- The validity checks `poll_server` applies to the stored `api_base` value,
in source order. -/
def validApiBase : Option String → Bool
  | Option.none => false
  | some url =>
      !(url.trim == "") && (url.map Char.toLower).startsWith "http://"

/-- `poll_server`: raise on a missing, blank, or non-`http://` URL, otherwise
probe the server.  First component: `.error` is a raised `ValueError`, `.ok`
the returned reachability flag.  Second component: the URLs passed to
`server_online`. -/
def pollServer (apiBase : Option String) (online : String → Bool) :
    Except String Bool × List String :=
  match apiBase with
  | Option.none => (.error "api_base setting is missing.", [])
  | some url =>
      if url.trim == "" then
        (.error "api_base setting is blank.", [])
      else if !((url.map Char.toLower).startsWith "http://") then
        (.error "api_base setting is not a valid http URL.", [])
      else
        (.ok (online url), [url])

/-- Whether an `Except` outcome is a normal return. -/
def exceptOk {ε α : Type} : Except ε α → Bool
  | .ok _ => true
  | .error _ => false

/-! ## Response materialization
(gimp_sd_a1111.StabDiffAuto1111.ResponseLayers.__init__, lines 736-776)

The constructor decodes `response["info"]` into parallel `infotexts` and
`all_seeds` arrays, then walks `response["images"]` with a running `index`.
When `index < len(all_seeds)` it inserts a layer named from the seed and tags
it with `{"info": infotexts[index], "seed": all_seeds[index]}`.  Otherwise the
image is an annotator image: it is inserted untagged as "Annotator Layer" only
when the caller passed `skip_annotator_layers = False`; with the flag set,
`layer_local` stays `None` and the following `layers.append(layer_local.layer)`
raises `AttributeError`, which the surrounding `try`/`except` catches, ending
the loop — no further image is inserted.  The model returns the list of layers
actually inserted into the image, in insertion order, reproducing the
abort-on-exception control flow.
-/

/-- A layer created by `ResponseLayers.__init__`: its name and, for generated
results, the attached provenance parasite data (info text and seed). -/
structure MadeLayer where
  name : String
  provenance : Option (String × ℤ)
deriving DecidableEq, Repr

/-- The tagged layer made for image `index` when `index < len(all_seeds)`:
renamed to `"Generated Layer " + str(seed)` and tagged with
`{"info": infotexts[index], "seed": seeds[index]}`. -/
def generatedLayer (info : String) (seed : ℤ) : MadeLayer :=
  { name := "Generated Layer " ++ toString seed, provenance := some (info, seed) }

/-- The untagged layer made for an image beyond the seed count when the caller
did not ask to skip annotator layers. -/
def annotatorLayer : MadeLayer :=
  { name := "Annotator Layer", provenance := Option.none }

/-- The `for image in response["images"]` loop of `ResponseLayers.__init__`,
parametrized by the running `index`.  An out-of-range `infotexts[index]`
(IndexError) or the `None.layer` access on a skipped annotator image
(AttributeError) aborts the loop via the enclosing `except` clause. -/
def responseLayersLoop (infotexts : List String) (seeds : List ℤ)
    (skipAnnotator : Bool) : ℕ → List String → List MadeLayer
  | _, [] => []
  | index, _ :: rest =>
    if index < seeds.length then
      match infotexts[index]?, seeds[index]? with
      | some info, some seed =>
          generatedLayer info seed ::
            responseLayersLoop infotexts seeds skipAnnotator (index + 1) rest
      | _, _ => []
    else if skipAnnotator then
      []
    else
      annotatorLayer ::
        responseLayersLoop infotexts seeds skipAnnotator (index + 1) rest

/-- `ResponseLayers.__init__` on a decoded response: `images` is
`response["images"]`, `infotexts` and `seeds` the parallel arrays from the
JSON-encoded `info` field, `skipAnnotator` the caller-supplied
`skip_annotator_layers` option.  Returns the layers inserted into the image. -/
def responseLayers (images : List String) (infotexts : List String)
    (seeds : List ℤ) (skipAnnotator : Bool) : List MadeLayer :=
  responseLayersLoop infotexts seeds skipAnnotator 0 images

/-! ## Control-unit extractor
(gimp_sd_a1111.StabDiffAuto1111.get_control_net_params, lines 400-413)

The GIMP image is modeled as a list of identified layers plus a fresh-id
counter.  `get_control_net_params` loads the source layer parasite data
(falling back to `CONTROLNET_DEFAULT_SETTINGS`, kept opaque here), duplicates
the layer, inserts the duplicate, scales it so both dimensions are multiples
of 64, base64-encodes it (and its mask when the source layer has one), and
removes the duplicate again.
-/

/-- The state of one GIMP layer as far as the extractor observes or changes
it: geometry, opaque pixel content, attached parasite data, mask presence. -/
structure CnLayer where
  width : ℤ
  height : ℤ
  content : ℕ
  parasite : Option String
  hasMask : Bool
deriving DecidableEq, Repr

/-- A GIMP image for the extractor: identified layers plus a counter
producing fresh layer ids for `Gimp.Layer.copy`. -/
structure CnDoc where
  layers : List (ℕ × CnLayer)
  nextId : ℕ
deriving DecidableEq, Repr

/-- Look a layer up by id. -/
def lookupLayer (doc : CnDoc) (layerId : ℕ) : Option CnLayer :=
  (doc.layers.find? (fun p => p.1 == layerId)).map Prod.snd

/-- `LayerLocal.resize_to_multiple_of(64)` on a layer state: both dimensions
scaled to `round_to_multiple(d, 64)`. -/
def resizeToMultipleOf64 (st : CnLayer) : CnLayer :=
  { st with
    width := round_to_multiple st.width 64
    height := round_to_multiple st.height 64 }

/-- `LayerLocal.to_base64`: the PNG export of the layer, base64-encoded;
opaque, but determined by the layer state it encodes. -/
def layerToBase64 (st : CnLayer) : String :=
  "b64png:" ++ toString st.content ++ ":" ++ toString st.width ++ "x" ++
    toString st.height

/-- `LayerLocal.mask_to_base64`: the PNG export of the layer mask,
base64-encoded; opaque, but determined by the layer state. -/
def maskToBase64 (st : CnLayer) : String :=
  "b64mask:" ++ toString st.content

/-- The control-unit object returned by `get_control_net_params`: the data
loaded from the source layer parasite (`Option.none` meaning the
`CONTROLNET_DEFAULT_SETTINGS` fallback was used), the `input_image` field, and
the `mask` field when the source layer has a mask. -/
structure CnParams where
  settingsData : Option String
  input_image : String
  mask : Option String
deriving DecidableEq, Repr

/-- `get_control_net_params(cn_layer)`: load parasite data, copy the layer,
insert the copy, resize it to multiples of 64, encode it (and its mask when
the source has one), remove the copy, return the data.  Returns the params
(or Python `None` when the layer id is unknown) and the updated image. -/
def get_control_net_params (doc : CnDoc) (srcId : ℕ) :
    Option CnParams × CnDoc :=
  match lookupLayer doc srcId with
  | Option.none => (Option.none, doc)
  | some st =>
      let data := st.parasite
      let newId := doc.nextId
      let afterInsert : List (ℕ × CnLayer) := (newId, st) :: doc.layers
      let st64 := resizeToMultipleOf64 st
      let afterResize := afterInsert.map
        (fun p => if p.1 == newId then (p.1, st64) else p)
      let inputImage := layerToBase64 st64
      let maskField := if st.hasMask then some (maskToBase64 st64)
        else Option.none
      let afterRemove := afterResize.filter (fun p => !(p.1 == newId))
      (some { settingsData := data, input_image := inputImage,
              mask := maskField },
       { layers := afterRemove, nextId := doc.nextId + 1 })

/-- A concrete control-input layer used to exercise the extractor. -/
def cnSampleLayer : CnLayer :=
  { width := 100, height := 60, content := 7, parasite := some "cn-settings",
    hasMask := true }

/-- A concrete one-layer image used to exercise the extractor. -/
def cnSampleDoc : CnDoc :=
  { layers := [(0, cnSampleLayer)], nextId := 1 }

/-! ## Deep key stringification (sd_gui_utils.as_strings_deeply, lines 34-41)

Strings are returned as `str(data)` (itself), any non-dict non-string value —
lists included, their contents untouched — is returned unchanged, and a dict
is rebuilt with `str(k)` keys and recursively converted values.  Python dict
keys must be hashable, so keys are scalars (`str`, `int`, `bool`, `None`),
modeled by `PyKey`.
-/

/-- A hashable Python scalar usable as a dict key. -/
inductive PyKey where
  | kStr (s : String)
  | kInt (n : ℤ)
  | kBool (b : Bool)
  | kNone
deriving DecidableEq, Repr

/-- The Python built-in `str` on a dict key. -/
def pyKeyStr : PyKey → String
  | .kStr s => s
  | .kInt n => toString n
  | .kBool b => if b then "True" else "False"
  | .kNone => "None"

/-- A JSON-like Python value: scalars, strings, lists, and dicts with
scalar keys. -/
inductive PyData where
  | pStr (s : String)
  | pInt (n : ℤ)
  | pBool (b : Bool)
  | pNone
  | pList (xs : List PyData)
  | pDict (kvs : List (PyKey × PyData))

mutual

/-- `sd_gui_utils.as_strings_deeply`: `str` on strings, identity on every
other non-dict value (lists pass through with their contents untouched), and
on a dict, `str` on each key with recursion into each value. -/
def as_strings_deeply : PyData → PyData
  | .pStr s => .pStr s
  | .pInt n => .pInt n
  | .pBool b => .pBool b
  | .pNone => .pNone
  | .pList xs => .pList xs
  | .pDict kvs => .pDict (asStringsPairs kvs)

/-- The dict-comprehension body of `as_strings_deeply`:
`(str(k), as_strings_deeply(v))` for each entry. -/
def asStringsPairs : List (PyKey × PyData) → List (PyKey × PyData)
  | [] => []
  | (k, v) :: rest => (.kStr (pyKeyStr k), as_strings_deeply v) ::
      asStringsPairs rest

end

/-! ## Helper lemmas -/

/-- Python `round` moves a rational by at most one half. -/
theorem abs_pythonRound_sub_le (q : ℚ) :
    |((pythonRound q : ℤ) : ℚ) - q| ≤ 1 / 2 := by
  have h0 : ((⌊q⌋ : ℤ) : ℚ) ≤ q := Int.floor_le q
  have h1 : q < ⌊q⌋ + 1 := Int.lt_floor_add_one q
  unfold pythonRound
  split_ifs with ha hb hc
  · rw [abs_le]; constructor <;> linarith
  · rw [abs_le]; push_cast; constructor <;> linarith
  · rw [abs_le]
    have ha2 := le_of_not_lt ha
    have hb2 := le_of_not_lt hb
    constructor <;> linarith
  · rw [abs_le]
    have ha2 := le_of_not_lt ha
    have hb2 := le_of_not_lt hb
    push_cast
    constructor <;> linarith

/-- `round_to_multiple` moves its argument by at most half the multiple. -/
theorem round_to_multiple_bound (v : ℚ) (m : ℤ) (hm : 0 < m) :
    |((round_to_multiple v m : ℤ) : ℚ) - v| ≤ (m : ℚ) / 2 := by
  have key := abs_pythonRound_sub_le (v / m)
  have hm0 : (m : ℚ) ≠ 0 := by positivity
  have hrw : ((round_to_multiple v m : ℤ) : ℚ) - v =
      (m : ℚ) * (((pythonRound (v / m) : ℤ) : ℚ) - v / m) := by
    unfold round_to_multiple
    push_cast
    field_simp
    ring
  rw [hrw, abs_mul, abs_of_pos (by positivity : (0:ℚ) < (m:ℚ))]
  calc (m : ℚ) * |((pythonRound (v / m) : ℤ) : ℚ) - v / m|
      ≤ (m : ℚ) * (1 / 2) :=
        mul_le_mul_of_nonneg_left key (by positivity)
    _ = (m : ℚ) / 2 := by ring

/-- `round_to_multiple` always yields a multiple of its second argument. -/
theorem round_to_multiple_dvd (v : ℚ) (m : ℤ) :
    round_to_multiple v m % m = 0 := by
  unfold round_to_multiple
  exact Int.mul_emod_right m _

/-- Characterization of the `ResponseLayers` image loop from any start index:
seed-indexed images become tagged generated layers, and the tail beyond the
seed count becomes annotator layers exactly when the skip flag is unset. -/
theorem responseLayersLoop_eq (infos : List String) (seeds : List ℤ)
    (skip : Bool) (images : List String) :
    ∀ (index : ℕ),
      infos.length = seeds.length →
      seeds.length - index ≤ images.length →
      responseLayersLoop infos seeds skip index images =
        List.zipWith generatedLayer (infos.drop index) (seeds.drop index) ++
          (if skip then [] else
            List.replicate (images.length - (seeds.length - index))
              annotatorLayer) := by
  induction images with
  | nil =>
      intro index hlen hle
      have hz : seeds.length - index = 0 := Nat.le_zero.mp hle
      have hdropS : seeds.drop index = [] := List.drop_eq_nil_of_le (by omega)
      simp [responseLayersLoop, hdropS, hz]
  | cons img rest ih =>
      intro index hlen hle
      by_cases hidx : index < seeds.length
      · have hinf : index < infos.length := by omega
        have h1 : infos[index]? = some infos[index] :=
          List.getElem?_eq_getElem hinf
        have h2 : seeds[index]? = some seeds[index] :=
          List.getElem?_eq_getElem hidx
        have hcount : (img :: rest).length - (seeds.length - index) =
            rest.length - (seeds.length - (index + 1)) := by
          simp only [List.length_cons]; omega
        simp only [responseLayersLoop, hidx, if_true, h1, h2]
        rw [List.drop_eq_getElem_cons hinf, List.drop_eq_getElem_cons hidx,
          List.zipWith_cons_cons, ih (index + 1) hlen (by simp at hle ⊢; omega),
          hcount]
        rfl
      · have hdropS : seeds.drop index = [] := List.drop_eq_nil_of_le (by omega)
        have hz : seeds.length - index = 0 := by omega
        cases skip with
        | true => simp [responseLayersLoop, hidx, hdropS]
        | false =>
            simp only [responseLayersLoop, hidx, if_false, hdropS,
              List.zipWith_nil_right, List.nil_append, hz, Nat.sub_zero,
              Bool.false_eq_true, if_neg]
            rw [ih (index + 1) hlen (by omega)]
            have hz2 : seeds.length - (index + 1) = 0 := by omega
            have hdropS2 : seeds.drop (index + 1) = [] :=
              List.drop_eq_nil_of_le (by omega)
            simp [hdropS2, hz2, List.replicate_succ]

/-- Every layer built by zipping infotexts with seeds carries provenance. -/
theorem zipWith_gen_filter_some (infos : List String) :
    ∀ seeds : List ℤ,
      (List.zipWith generatedLayer infos seeds).filter
          (fun l => l.provenance.isSome) =
        List.zipWith generatedLayer infos seeds := by
  induction infos with
  | nil => intro seeds; simp
  | cons i irest ih =>
      intro seeds
      cases seeds with
      | nil => simp
      | cons s srest => simp [generatedLayer, ih srest]

/-- No layer built by zipping infotexts with seeds is untagged. -/
theorem zipWith_gen_filter_none (infos : List String) :
    ∀ seeds : List ℤ,
      (List.zipWith generatedLayer infos seeds).filter
        (fun l => l.provenance.isNone) = [] := by
  induction infos with
  | nil => intro seeds; simp
  | cons i irest ih =>
      intro seeds
      cases seeds with
      | nil => simp
      | cons s srest => simp [generatedLayer, ih srest]

mutual

/-- `as_strings_deeply` applied twice equals it applied once, on values. -/
theorem asStringsDeeplyIdemAux :
    ∀ d : PyData, as_strings_deeply (as_strings_deeply d) = as_strings_deeply d
  | .pStr _ => rfl
  | .pInt _ => rfl
  | .pBool _ => rfl
  | .pNone => rfl
  | .pList _ => rfl
  | .pDict kvs => by
      simp only [as_strings_deeply]
      rw [asStringsPairsIdemAux kvs]

/-- `as_strings_deeply` applied twice equals it applied once, on dict
entry lists. -/
theorem asStringsPairsIdemAux :
    ∀ kvs : List (PyKey × PyData),
      asStringsPairs (asStringsPairs kvs) = asStringsPairs kvs
  | [] => rfl
  | (k, v) :: rest => by
      simp only [asStringsPairs, pyKeyStr]
      rw [asStringsDeeplyIdemAux v, asStringsPairsIdemAux rest]

end

/-- `asStringsPairs` maps key stringification and value conversion over the
entry list. -/
theorem asStringsPairsMap (kvs : List (PyKey × PyData)) :
    asStringsPairs kvs =
      kvs.map (fun kv => (PyKey.kStr (pyKeyStr kv.1), as_strings_deeply kv.2)) := by
  induction kvs with
  | nil => rfl
  | cons kv rest ih => cases kv; simp [asStringsPairs, ih]

/-! ## Claims -/

/-- Claim C1: for a decoded response with `N` images and `K <= N` seeds
(parallel `infotexts` and `all_seeds` arrays), materialization inserts the
`K` seed-indexed images as layers named from their seed and tagged with
provenance (info text and seed), and treats the remaining `N - K` images as
annotator images: none is inserted when the caller set the skip-annotator
flag, and each is inserted as an untagged annotator layer otherwise. -/
theorem claim_C1_response_materialization (images infotexts : List String)
    (seeds : List ℤ) (skipAnnotator : Bool)
    (hpar : infotexts.length = seeds.length)
    (hK : seeds.length ≤ images.length) :
    responseLayers images infotexts seeds skipAnnotator =
      List.zipWith generatedLayer infotexts seeds ++
        (if skipAnnotator then [] else
          List.replicate (images.length - seeds.length) annotatorLayer) ∧
    ((responseLayers images infotexts seeds skipAnnotator).filter
        (fun l => l.provenance.isSome)).length = seeds.length ∧
    ((responseLayers images infotexts seeds skipAnnotator).filter
        (fun l => l.provenance.isNone)).length =
      (if skipAnnotator then 0 else images.length - seeds.length) := by
  have hmain := responseLayersLoop_eq infotexts seeds skipAnnotator images 0
    hpar (by omega)
  simp only [List.drop_zero, Nat.sub_zero] at hmain
  refine ⟨hmain, ?_, ?_⟩
  · unfold responseLayers
    rw [hmain, List.filter_append, zipWith_gen_filter_some]
    have hrep : (if skipAnnotator then ([] : List MadeLayer) else
        List.replicate (images.length - seeds.length) annotatorLayer).filter
          (fun l => l.provenance.isSome) = [] := by
      cases skipAnnotator <;> simp [annotatorLayer]
    rw [hrep, List.append_nil, List.length_zipWith]
    omega
  · unfold responseLayers
    rw [hmain, List.filter_append, zipWith_gen_filter_none, List.nil_append]
    cases skipAnnotator <;> simp [annotatorLayer]

/-- Witness for C1: three images, two seeds, skip flag unset — two tagged
layers and one annotator layer. -/
theorem claim_C1_witness :
    responseLayers ["a", "b", "c"] ["i1", "i2"] [5, 7] false =
      List.zipWith generatedLayer ["i1", "i2"] [5, 7] ++
        (if false then [] else
          List.replicate ((["a", "b", "c"] : List String).length -
            ([5, 7] : List ℤ).length) annotatorLayer) ∧
    ((responseLayers ["a", "b", "c"] ["i1", "i2"] [5, 7] false).filter
        (fun l => l.provenance.isSome)).length = ([5, 7] : List ℤ).length ∧
    ((responseLayers ["a", "b", "c"] ["i1", "i2"] [5, 7] false).filter
        (fun l => l.provenance.isNone)).length =
      (if false then 0 else (["a", "b", "c"] : List String).length -
        ([5, 7] : List ℤ).length) :=
  claim_C1_response_materialization ["a", "b", "c"] ["i1", "i2"] [5, 7] false
    (by decide) (by decide)

/-- Claim C2: settings persistence round-trip — starting from a fresh shelf
initialized with the defaults, after `save(x)` a subsequent `load()` yields
the defaults merged with `x`; a missing or corrupt settings file makes
`load()` fall back to the defaults (totally, nothing is raised). -/
theorem claim_C2_settings_roundtrip (α : Type)
    (defaults x d : String → Option α) :
    (shelfLoad (shelfSave (shelfInit defaults) x) defaults).data =
      dictUpdate defaults x ∧
    (shelfLoad { data := d, file := .missing } defaults).data = defaults ∧
    (shelfLoad { data := d, file := .corrupt } defaults).data = defaults :=
  ⟨rfl, rfl, rfl⟩

/-- Claim C3: the translator rounding lands on a multiple of 8 within
distance 4 of the input, and the control-unit resize (multiples of 64) lands
within distance 32 of the layer dimension, for every width/height. -/
theorem claim_C3_rounding_bounds (width height : ℚ) (st : CnLayer) :
    round_to_multiple width 8 % 8 = 0 ∧
    |((round_to_multiple width 8 : ℤ) : ℚ) - width| ≤ 4 ∧
    round_to_multiple height 8 % 8 = 0 ∧
    |((round_to_multiple height 8 : ℤ) : ℚ) - height| ≤ 4 ∧
    (resizeToMultipleOf64 st).width % 64 = 0 ∧
    |(((resizeToMultipleOf64 st).width : ℤ) : ℚ) - (st.width : ℚ)| ≤ 32 ∧
    (resizeToMultipleOf64 st).height % 64 = 0 ∧
    |(((resizeToMultipleOf64 st).height : ℤ) : ℚ) - (st.height : ℚ)| ≤ 32 := by
  have h8w := round_to_multiple_bound width 8 (by norm_num)
  have h8h := round_to_multiple_bound height 8 (by norm_num)
  have h64w := round_to_multiple_bound (st.width : ℚ) 64 (by norm_num)
  have h64h := round_to_multiple_bound (st.height : ℚ) 64 (by norm_num)
  refine ⟨round_to_multiple_dvd _ _, by linarith,
          round_to_multiple_dvd _ _, by linarith,
          round_to_multiple_dvd _ _,
          by simp only [resizeToMultipleOf64]; push_cast at h64w ⊢; linarith,
          round_to_multiple_dvd _ _,
          by simp only [resizeToMultipleOf64]; push_cast at h64h ⊢; linarith⟩

/-- Claim C4: on a non-2xx HTTP response (an `HTTPError` from the single
`urlopen` call), `ApiClient.post` logs the status code, reason, and headers,
returns no value to its caller without propagating any exception, and makes
exactly one network call (no retry) for every outcome. -/
theorem claim_C4_post_error_handling (url : String) (e : HttpErrorInfo) :
    apiClientPost url (.httpError e) =
      { returned := .ok Option.none
        logged := ["POST " ++ url,
                   "ERROR: ApiClient.post()",
                   "url=" ++ e.url ++ ", code=" ++ toString e.code ++
                     ", reason=" ++ e.reason,
                   e.headers]
        networkCalls := 1 } ∧
    (∀ outcome : HttpOutcome, (apiClientPost url outcome).networkCalls = 1) := by
  refine ⟨rfl, ?_⟩
  intro outcome
  cases outcome <;> rfl

/-- Claim C5: `poll_server` raises (and never probes the network) exactly when
the stored `api_base` URL is missing, blank, or malformed; on every other URL
it probes the server once via `server_online`. -/
theorem claim_C5_poll_server_validation (apiBase : Option String)
    (online : String → Bool) :
    exceptOk (pollServer apiBase online).1 = validApiBase apiBase ∧
    (pollServer apiBase online).2 =
      (if validApiBase apiBase then apiBase.toList else []) := by
  cases apiBase with
  | none => simp [pollServer, validApiBase, exceptOk]
  | some url =>
      simp only [pollServer, validApiBase]
      by_cases h1 : url.trim == ""
      · simp [h1, exceptOk]
      · by_cases h2 : (url.map Char.toLower).startsWith "http://"
        · simp [h1, h2, exceptOk]
        · simp [h1, h2, exceptOk]

/-- Claim C6: `get_control_net_params` never mutates the source layer and
leaves no duplicate in the image — the duplicate it inserts, resizes to
multiples of 64, and base64-encodes is removed before returning, so the
image layer list is exactly what it was. -/
theorem claim_C6_extractor_frame (doc : CnDoc) (srcId : ℕ) (st : CnLayer)
    (hfind : lookupLayer doc srcId = some st)
    (hfresh : ∀ p ∈ doc.layers, p.1 < doc.nextId) :
    get_control_net_params doc srcId =
      (some { settingsData := st.parasite
              input_image := layerToBase64 (resizeToMultipleOf64 st)
              mask := if st.hasMask then
                  some (maskToBase64 (resizeToMultipleOf64 st))
                else Option.none },
       { layers := doc.layers, nextId := doc.nextId + 1 }) := by
  have hne : ∀ p ∈ doc.layers, (p.1 == doc.nextId) = false := by
    intro p hp
    simp only [beq_eq_false_iff_ne]
    exact Nat.ne_of_lt (hfresh p hp)
  have hmap : doc.layers.map
      (fun p => if p.1 == doc.nextId then (p.1, resizeToMultipleOf64 st) else p) =
        doc.layers := by
    conv_rhs => rw [← List.map_id doc.layers]
    apply List.map_congr_left
    intro p hp
    simp [hne p hp]
  have hfilt : doc.layers.filter (fun p => !(p.1 == doc.nextId)) = doc.layers :=
    List.filter_eq_self.mpr (fun p hp => by simp [hne p hp])
  unfold get_control_net_params
  rw [hfind]
  simp only [List.map_cons, beq_self_eq_true, if_true, hmap, List.filter_cons,
    Bool.not_true, hfilt, Bool.false_eq_true, if_false]

/-- Witness for C6: a one-layer image with a masked control layer — the
extractor returns the encoded params and the image is unchanged. -/
theorem claim_C6_witness :
    get_control_net_params cnSampleDoc 0 =
      (some { settingsData := cnSampleLayer.parasite
              input_image := layerToBase64 (resizeToMultipleOf64 cnSampleLayer)
              mask := if cnSampleLayer.hasMask then
                  some (maskToBase64 (resizeToMultipleOf64 cnSampleLayer))
                else Option.none },
       { layers := cnSampleDoc.layers, nextId := cnSampleDoc.nextId + 1 }) :=
  claim_C6_extractor_frame cnSampleDoc 0 cnSampleLayer (by rfl) (by decide)

/-- Claim C7: the batch size transmitted in a generation request is the
supplied integer clamped into `[1, 20]`: `max(1, min(20, n))` for every
integer `n` (the source computes `min(20, max(1, n))`, which agrees). -/
theorem claim_C7_batch_clamp (resizeMode : ℤ) (b64 pPre nPre sp sn : String)
    (den : ℚ) (steps : ℤ) (cfg : ℚ) (w h : ℚ) (i : Fin SAMPLERS.length)
    (batch : ℤ) (seed : PyVal) :
    (image_to_image_data resizeMode b64 pPre nPre sp sn den steps cfg w h i
        batch seed).batch_size = max 1 (min 20 batch) := by
  show min MAX_BATCH_SIZE (max 1 batch) = max 1 (min 20 batch)
  simp only [MAX_BATCH_SIZE]
  omega

/-- Claim C8: the transmitted seed is `-1` when the supplied seed is `0`,
`None`, or the empty string, and any other integer seed passes through
unchanged. -/
theorem claim_C8_seed_mapping (resizeMode : ℤ) (b64 pPre nPre sp sn : String)
    (den : ℚ) (steps : ℤ) (cfg : ℚ) (w h : ℚ) (i : Fin SAMPLERS.length)
    (batch : ℤ) :
    (image_to_image_data resizeMode b64 pPre nPre sp sn den steps cfg w h i
        batch (.int 0)).seed = .int (-1) ∧
    (image_to_image_data resizeMode b64 pPre nPre sp sn den steps cfg w h i
        batch .none).seed = .int (-1) ∧
    (image_to_image_data resizeMode b64 pPre nPre sp sn den steps cfg w h i
        batch (.str "")).seed = .int (-1) ∧
    (∀ n : ℤ, n ≠ 0 →
      (image_to_image_data resizeMode b64 pPre nPre sp sn den steps cfg w h i
        batch (.int n)).seed = .int n) := by
  refine ⟨rfl, rfl, rfl, ?_⟩
  intro n hn
  show pyOr (.int n) (.int (-1)) = .int n
  simp [pyOr, pyTruthy, hn]

/-- Witness for C8: a nonzero seed passes through unchanged. -/
theorem claim_C8_witness :
    (image_to_image_data 0 "img" "p" "n" "sp" "sn" 1 2 3 4 5
        ⟨0, by decide⟩ 6 (.int 42)).seed = .int 42 :=
  (claim_C8_seed_mapping 0 "img" "p" "n" "sp" "sn" 1 2 3 4 5
    ⟨0, by decide⟩ 6).2.2.2 42 (by decide)

/-- Claim C9: indexing the fixed sampler list at any member name's index
returns that name, and the transmitted `sampler_index` field is the list
element at the dialog-selected index. -/
theorem claim_C9_sampler_roundtrip :
    (∀ s ∈ SAMPLERS, SAMPLERS[SAMPLERS.indexOf s]? = some s) ∧
    (∀ (resizeMode : ℤ) (b64 pPre nPre sp sn : String) (den : ℚ) (steps : ℤ)
        (cfg : ℚ) (w h : ℚ) (i : Fin SAMPLERS.length) (batch : ℤ)
        (seed : PyVal),
      (image_to_image_data resizeMode b64 pPre nPre sp sn den steps cfg w h i
        batch seed).sampler_index = SAMPLERS.get i) :=
  ⟨fun _ hs => List.getElem?_indexOf hs,
   fun _ _ _ _ _ _ _ _ _ _ _ _ _ _ => rfl⟩

/-- Witness for C9: the round-trip at the last sampler name, `DDIM`. -/
theorem claim_C9_witness :
    SAMPLERS[SAMPLERS.indexOf "DDIM"]? = some "DDIM" :=
  claim_C9_sampler_roundtrip.1 "DDIM" (by decide)

/-- Claim C10: `as_strings_deeply` is idempotent; it stringifies every key of
every nested dictionary while converting the values recursively, and returns
every non-dict value — strings to `str(data)` (itself), and scalars, `None`,
and lists (contents included) unchanged. -/
theorem claim_C10_as_strings_deeply_idem :
    (∀ d : PyData,
      as_strings_deeply (as_strings_deeply d) = as_strings_deeply d) ∧
    (∀ kvs : List (PyKey × PyData),
      as_strings_deeply (.pDict kvs) =
        .pDict (kvs.map (fun kv => (PyKey.kStr (pyKeyStr kv.1),
          as_strings_deeply kv.2)))) ∧
    (∀ s, as_strings_deeply (.pStr s) = .pStr s) ∧
    (∀ n, as_strings_deeply (.pInt n) = .pInt n) ∧
    (∀ b, as_strings_deeply (.pBool b) = .pBool b) ∧
    as_strings_deeply .pNone = .pNone ∧
    (∀ xs, as_strings_deeply (.pList xs) = .pList xs) :=
  ⟨asStringsDeeplyIdemAux,
   fun kvs => by simp only [as_strings_deeply]; rw [asStringsPairsMap],
   fun _ => rfl, fun _ => rfl, fun _ => rfl, rfl, fun _ => rfl⟩
